import Mathlib

/-
Verification development for the identity and derivation core
(src/rust/db_handling/src/identities.rs).

Strings are modelled as lists of characters (Chars).  Byte-level string
operations of the source (such as str::get with a byte range) are modelled
through Char.utf8Size, which gives the UTF-8 byte width of each character.
The sled database tree ADDRTREE is modelled as an association list from
address keys to already-decoded address details, in iteration order; point
lookups go through db_get.  The cryptographic from_string primitives of
sp_core (ed25519 / sr25519 / ecdsa pair derivation) are modelled as an
oracle parameter, since the merge and error logic under verification does
not depend on the key material itself.
-/

abbrev Chars := List Char

/-- Signature schemes, definitions::crypto::Encryption. -/
inductive Encryption
  | Ed25519
  | Sr25519
  | Ecdsa
deriving DecidableEq, Repr

/-- Tagged public keys, sp_runtime::MultiSigner. -/
inductive MultiSigner
  | Ed25519 (pk : List Nat)
  | Sr25519 (pk : List Nat)
  | Ecdsa (pk : List Nat)
deriving DecidableEq, Repr

/-- AddressKey is the canonical byte encoding of a MultiSigner; the encoding
is injective, so the key is modelled by the MultiSigner itself
(AddressKey::from_multisigner is the identity of this model). -/
abbrev AddressKey := MultiSigner

/-- NetworkSpecsKey::from_parts(genesis_hash, encryption): the canonical
byte encoding 01 or tag or hash is injective in the pair, so the key is
modelled by the pair itself. -/
structure NetworkSpecsKey where
  genesis_hash : List Nat
  encryption : Encryption
deriving DecidableEq, Repr

/-- Fields of definitions::network_specs::NetworkSpecs used by this module
(display-only fields such as the base58 prefix are not consulted by the
functions under verification and are omitted). -/
structure NetworkSpecs where
  name : Chars
  genesis_hash : List Nat
  encryption : Encryption
  path_id : Chars
deriving DecidableEq, Repr

/-- definitions::users::SeedObject. -/
structure SeedObject where
  seed_name : Chars
  seed_phrase : Chars
  encryption : Encryption
deriving DecidableEq, Repr

/-- definitions::users::AddressDetails, the persisted value in ADDRTREE. -/
structure AddressDetails where
  seed_name : Chars
  path : Chars
  has_pwd : Bool
  network_id : List NetworkSpecsKey
  encryption : Encryption
deriving DecidableEq, Repr

/-- definitions::history::IdentityHistory::get. -/
structure IdentityHistory where
  seed_name : Chars
  encryption : Encryption
  public_key : List Nat
  path : Chars
  genesis_hash : List Nat
deriving DecidableEq, Repr

/-- History events emitted by this module. -/
inductive Event
  | IdentityAdded (h : IdentityHistory)
  | IdentityRemoved (h : IdentityHistory)
deriving DecidableEq, Repr

/-- Error kinds reachable from the functions under verification, collapsing
the Active/Signer error taxonomies into the shared meanings. -/
inductive ErrKind
  | EncryptionMismatch (network_encryption seed_object_encryption : Encryption)
  | SecretString
  | KeyCollision (seed_name : Chars)
  | InvalidDerivation
  | NotFound
  | PublicKeyLength
deriving DecidableEq, Repr

/-- One sled Batch operation on ADDRTREE. -/
inductive BatchOp
  | remove (key : AddressKey)
  | put (key : AddressKey) (value : AddressDetails)
deriving DecidableEq, Repr

/- ---------------------------------------------------------------------
The derivation-path regular expression REG_PATH (identities.rs line 30):
  anchored:  (?P<path>(//?[^/]+)*)(///(?P<password>.+))?
The path iterations consume one or two slashes followed by a maximal
non-empty run of non-slash characters; such iterations can never consume a
run of three or more slashes, and dropping a final iteration never exposes
a three-slash run, so the greedy left-to-right parse below is complete:
a string matches the regex iff the parse below succeeds.
--------------------------------------------------------------------- -/

/-- Greedy parse of the path group: returns (consumed path, rest). -/
def parse_path_go : Nat → Chars → (Chars × Chars)
  | 0, s => ([], s)
  | fuel + 1, s =>
    match s with
    | '/' :: '/' :: c :: rest =>
      if c = '/' then ([], s)
      else
        let seg := List.takeWhile (fun ch => ch ≠ '/') (c :: rest)
        let rest2 := List.dropWhile (fun ch => ch ≠ '/') (c :: rest)
        let pr := parse_path_go fuel rest2
        ('/' :: '/' :: (seg ++ pr.1), pr.2)
    | '/' :: c :: rest =>
      if c = '/' then ([], s)
      else
        let seg := List.takeWhile (fun ch => ch ≠ '/') (c :: rest)
        let rest2 := List.dropWhile (fun ch => ch ≠ '/') (c :: rest)
        let pr := parse_path_go fuel rest2
        ('/' :: (seg ++ pr.1), pr.2)
    | other => ([], other)

/-- Each parse step consumes at least one character, so the length of the
input is always enough fuel. -/
def parse_path (s : Chars) : Chars × Chars :=
  parse_path_go s.length s

/-- REG_PATH.captures: on a match, returns the path capture and the optional
password capture; none when the whole string does not match.  The password
group is one or more dots: the regex dot (no s flag) matches any character
EXCEPT a newline, while the negated class of the path segments does accept
newlines. -/
def reg_path_captures (s : Chars) : Option (Chars × Option Chars) :=
  let pr := parse_path s
  match pr.2 with
  | [] => some (pr.1, none)
  | '/' :: '/' :: '/' :: q =>
    if q ≠ [] ∧ q.all (fun ch => ch ≠ '\n') then some (pr.1, some q) else none
  | _ => none

/-- The path capture of REG_PATH, or the empty string when the regex does
not match (identities.rs lines 150-156). -/
def cropped_path (path : Chars) : Chars :=
  match reg_path_captures path with
  | some caps => caps.1
  | none => []

/-- check_derivation_format (identities.rs lines 371-376). -/
def check_derivation_format (path : Chars) : Except ErrKind Bool :=
  match reg_path_captures path with
  | some caps => Except.ok caps.2.isSome
  | none => Except.error ErrKind.InvalidDerivation

/- ---------------------------------------------------------------------
String helpers mirroring the Rust standard-library operations used by the
source.
--------------------------------------------------------------------- -/

/-- Rust u32::from_str: an optional leading plus sign, then one or more
ASCII digits, rejecting values that overflow 32 bits. -/
def parse_u32 (s : Chars) : Option Nat :=
  let digits :=
    match s with
    | '+' :: rest => rest
    | other => other
  if digits.isEmpty then none
  else if digits.all Char.isDigit then
    let n := digits.foldl (fun acc c => acc * 10 + (c.toNat - 48)) 0
    if n < 4294967296 then some n else none
  else none

/-- sanitize_number (identities.rs lines 287-292): numbers are reprinted
without leading zeros, everything else is kept verbatim. -/
def sanitize_number (could_be_number : Chars) : Chars :=
  match parse_u32 could_be_number with
  | some number => (Nat.repr number).toList
  | none => could_be_number

/-- Rust str::split_once: split at the first occurrence of the pattern. -/
def split_once_go (pat : Chars) (acc : Chars) : Chars → Option (Chars × Chars)
  | [] => if pat.isPrefixOf ([] : Chars) then some (acc.reverse, []) else none
  | c :: cs =>
    if pat.isPrefixOf (c :: cs) then some (acc.reverse, (c :: cs).drop pat.length)
    else split_once_go pat (c :: acc) cs

def split_once (s pat : Chars) : Option (Chars × Chars) :=
  split_once_go pat [] s

/-- Rust str::get(2..): drop the first two BYTES, returning none when byte
position 2 is not a character boundary or exceeds the length. -/
def str_get_from2 : Chars → Option Chars
  | [] => none
  | c1 :: rest =>
    if c1.utf8Size = 2 then some rest
    else if c1.utf8Size = 1 then
      match rest with
      | [] => none
      | c2 :: rest2 => if c2.utf8Size = 1 then some rest2 else none
    else none

/-- Rust str::split with the two-character pattern of two slashes,
non-overlapping, left to right. -/
def split_double_slash (cur : Chars) : Chars → List Chars
  | [] => [cur.reverse]
  | '/' :: '/' :: rest => cur.reverse :: split_double_slash [] rest
  | c :: rest => split_double_slash (c :: cur) rest

/-- Rust str::trim removes all Unicode White_Space; the label outputs
trimmed here only ever gain ASCII spaces from the algorithm itself, and
only those are modelled. -/
def chars_trim (s : Chars) : Chars :=
  ((s.dropWhile Char.isWhitespace).reverse.dropWhile Char.isWhitespace).reverse

/- ---------------------------------------------------------------------
Database model and the key-derivation oracle.
--------------------------------------------------------------------- -/

/-- The ADDRTREE tree with decoded entries, in iteration order. -/
abbrev AddrTree := List (AddressKey × AddressDetails)

/-- Point lookup in ADDRTREE (sled Tree::get plus decoding). -/
def db_get (database : AddrTree) (address_key : AddressKey) : Option AddressDetails :=
  (database.find? (fun x => x.1 == address_key)).map Prod.snd

/-- The three sp_core Pair::from_string primitives, abstracted: from the
full secret string each returns the public key bytes, or fails (the
SecretString error). -/
structure DeriveOracle where
  ed25519_from_string : Chars → Except Unit (List Nat)
  sr25519_from_string : Chars → Except Unit (List Nat)
  ecdsa_from_string : Chars → Except Unit (List Nat)

/-- The scheme dispatch of identities.rs lines 112-149: derive the public
key and wrap it as the corresponding MultiSigner / AddressKey. -/
def derive (oracle : DeriveOracle) (encryption : Encryption) (full_address : Chars) :
    Except Unit (List Nat × AddressKey) :=
  match encryption with
  | Encryption.Ed25519 =>
    (oracle.ed25519_from_string full_address).map (fun pk => (pk, MultiSigner.Ed25519 pk))
  | Encryption.Sr25519 =>
    (oracle.sr25519_from_string full_address).map (fun pk => (pk, MultiSigner.Sr25519 pk))
  | Encryption.Ecdsa =>
    (oracle.ecdsa_from_string full_address).map (fun pk => (pk, MultiSigner.Ecdsa pk))

/-- The staged-collision scan of identities.rs lines 161-177: find the
first staged entry with the same address key whose network_id does not yet
contain the network key; when found, return the staged list with that entry
removed, together with the entry (Vec::remove of the found index). -/
def stage_merge (network_specs_key : NetworkSpecsKey) (address_key : AddressKey) :
    AddrTree → Option (AddrTree × (AddressKey × AddressDetails))
  | [] => none
  | x :: xs =>
    if x.1 = address_key ∧ ¬ (network_specs_key ∈ x.2.network_id) then some (xs, x)
    else
      match stage_merge network_specs_key address_key xs with
      | some (remaining, entry) => some (x :: remaining, entry)
      | none => none

/-- The merge-resolution step of create_address (identities.rs lines
161-207), after the event has been pushed. -/
def create_address_merge (database : AddrTree) (output_batch_prep : AddrTree)
    (output_events : List Event) (path : Chars) (network_specs : NetworkSpecs)
    (seed_object : SeedObject) (has_pwd : Bool) (address_key : AddressKey) :
    Except ErrKind (AddrTree × List Event) :=
  let network_specs_key : NetworkSpecsKey :=
    ⟨network_specs.genesis_hash, network_specs.encryption⟩
  match stage_merge network_specs_key address_key output_batch_prep with
  | some (remaining, mod_entry) =>
    Except.ok
      (remaining ++
        [(mod_entry.1, { mod_entry.2 with network_id := mod_entry.2.network_id ++ [network_specs_key] })],
       output_events)
  | none =>
    match db_get database address_key with
    | some address_details =>
      if address_details.path ≠ path then
        Except.error (ErrKind.KeyCollision address_details.seed_name)
      else if ¬ (network_specs_key ∈ address_details.network_id) then
        Except.ok
          (output_batch_prep ++
            [(address_key, { address_details with network_id := address_details.network_id ++ [network_specs_key] })],
           output_events)
      else Except.ok (output_batch_prep, output_events)
    | none =>
      Except.ok
        (output_batch_prep ++
          [(address_key,
            ⟨seed_object.seed_name, cropped_path path, has_pwd, [network_specs_key], seed_object.encryption⟩)],
         output_events)

/-- create_address (identities.rs lines 101-208).  The zeroization of the
full secret string is a memory effect invisible to this value model. -/
def create_address (database : AddrTree) (oracle : DeriveOracle)
    (input_batch_prep : AddrTree) (input_events : List Event) (path : Chars)
    (network_specs : NetworkSpecs) (seed_object : SeedObject)
    (has_pwd : Bool) (specs_encryption_skip : Bool) :
    Except ErrKind (AddrTree × List Event) :=
  if network_specs.encryption ≠ seed_object.encryption then
    if specs_encryption_skip then Except.ok (input_batch_prep, input_events)
    else
      Except.error
        (ErrKind.EncryptionMismatch network_specs.encryption seed_object.encryption)
  else
    match derive oracle seed_object.encryption (seed_object.seed_phrase ++ path) with
    | Except.error _ => Except.error ErrKind.SecretString
    | Except.ok (public_key, address_key) =>
      create_address_merge database input_batch_prep
        (input_events ++
          [Event.IdentityAdded
            ⟨seed_object.seed_name, seed_object.encryption, public_key,
             cropped_path path, network_specs.genesis_hash⟩])
        path network_specs seed_object has_pwd address_key

/-- AddressKey::from_parts: rebuild a MultiSigner from raw public key bytes
and a scheme, checking the public-key length (32/32/33). -/
def address_key_from_parts (public_key : List Nat) (encryption : Encryption) :
    Except ErrKind AddressKey :=
  match encryption with
  | Encryption.Ed25519 =>
    if public_key.length = 32 then Except.ok (MultiSigner.Ed25519 public_key)
    else Except.error ErrKind.PublicKeyLength
  | Encryption.Sr25519 =>
    if public_key.length = 32 then Except.ok (MultiSigner.Sr25519 public_key)
    else Except.error ErrKind.PublicKeyLength
  | Encryption.Ecdsa =>
    if public_key.length = 33 then Except.ok (MultiSigner.Ecdsa public_key)
    else Except.error ErrKind.PublicKeyLength

/-- prepare_delete_address (identities.rs lines 326-340).  The network
specs are fetched from SPECSTREE under the very key decoded from the hex
argument, and the decode is key-checked, so the network key equals the pair
(genesis_hash, encryption) of the fetched specs. -/
def prepare_delete_address (database : AddrTree) (network_specs : NetworkSpecs)
    (public_key : List Nat) : Except ErrKind (List BatchOp × List Event) :=
  let network_specs_key : NetworkSpecsKey :=
    ⟨network_specs.genesis_hash, network_specs.encryption⟩
  match address_key_from_parts public_key network_specs.encryption with
  | Except.error e => Except.error e
  | Except.ok address_key =>
    match db_get database address_key with
    | none => Except.error ErrKind.NotFound
    | some address_details =>
      let identity_history : IdentityHistory :=
        ⟨address_details.seed_name, network_specs.encryption, public_key,
         address_details.path, network_specs.genesis_hash⟩
      let events := [Event.IdentityRemoved identity_history]
      let new_network_id :=
        address_details.network_id.filter (fun id => id ≠ network_specs_key)
      let id_batch :=
        if new_network_id.isEmpty then [BatchOp.remove address_key]
        else [BatchOp.put address_key { address_details with network_id := new_network_id }]
      Except.ok (id_batch, events)

/-- get_relevant_identities (identities.rs lines 58-65); the tree scan of
get_all_addresses is the list itself. -/
def get_relevant_identities (seed_name : Chars) (network_specs_key : NetworkSpecsKey)
    (database : AddrTree) : AddrTree :=
  let identities_out :=
    if seed_name = [] then database
    else database.filter (fun x => x.2.seed_name == seed_name)
  identities_out.filter (fun x => x.2.network_id.contains network_specs_key)

/-- The loop body of suggest_n_plus_one (identities.rs lines 358-366).  The
counter is a u32: index + 1 wraps modulo 2^32 in a release build (a debug
build aborts at index = u32::MAX instead); the wrap is modelled explicitly. -/
def n_plus_one_step (path : Chars) (last_index : Nat) (x : AddressKey × AddressDetails) : Nat :=
  match split_once x.2.path path with
  | some (pre, suffix) =>
    if pre = [] then
      match str_get_from2 suffix with
      | some could_be_number =>
        match parse_u32 could_be_number with
        | some index => Nat.max ((index + 1) % 4294967296) last_index
        | none => last_index
      | none => last_index
    else last_index
  | none => last_index

/-- suggest_n_plus_one (identities.rs lines 355-368). -/
def suggest_n_plus_one (database : AddrTree) (path : Chars) (seed_name : Chars)
    (network_specs_key : NetworkSpecsKey) : Chars :=
  let identities := get_relevant_identities seed_name network_specs_key database
  let last_index := identities.foldl (n_plus_one_step path) 0
  path ++ ('/' :: '/' :: (Nat.repr last_index).toList)

/-- suggest_path_name (identities.rs lines 295-322). -/
def suggest_path_name (path_all : Chars) : Chars :=
  let output : Chars :=
    match reg_path_captures path_all with
    | some caps =>
      if caps.1 ≠ [] then
        (split_double_slash [] caps.1).foldl
          (fun output hard =>
            match List.splitOn '/' hard with
            | [] => output
            | first :: softened =>
              let output := output ++ sanitize_number first
              let output := softened.foldl
                (fun output soft => output ++ (' ' :: '(' :: sanitize_number soft)) output
              if softened.length = 0 then output ++ [' ']
              else output ++ (List.replicate softened.length (')' :: ' ' :: [])).flatten
          ) []
      else []
    | none => []
  chars_trim output

/-- try_create_address (identities.rs lines 380-394), up to the staging of
the batch and events (the atomic commit is the committer's concern). -/
def try_create_address (database : AddrTree) (oracle : DeriveOracle)
    (seed_name seed_phrase path : Chars) (network_specs : NetworkSpecs)
    (has_pwd : Bool) : Except ErrKind (AddrTree × List Event) :=
  let seed_object : SeedObject := ⟨seed_name, seed_phrase, network_specs.encryption⟩
  create_address database oracle [] [] path network_specs seed_object has_pwd false

/-- Whether a result is the EncryptionMismatch error. -/
def is_encryption_mismatch {α : Type} : Except ErrKind α → Bool
  | Except.error (ErrKind.EncryptionMismatch _ _) => true
  | _ => false

/-- Modelled from the spec (amended reading of suggest_n_plus_one): an
identity contributes a value when its stored path starts with the base path
and the remainder, with its first two bytes dropped, parses as a decimal
u32. -/
def n_plus_one_value (path : Chars) (x : AddressKey × AddressDetails) : Option Nat :=
  match split_once x.2.path path with
  | some (pre, suffix) =>
    if pre = [] then (str_get_from2 suffix).bind parse_u32 else none
  | none => none

/-- The list of contributed values, in identity order. -/
def n_plus_one_candidates (identities : AddrTree) (path : Chars) : List Nat :=
  identities.filterMap (n_plus_one_value path)

/-- Decidable equality for Except results, used to state concrete outcomes. -/
def except_dec_eq {ε α : Type} [DecidableEq ε] [DecidableEq α] :
    DecidableEq (Except ε α)
  | Except.error e1, Except.error e2 => decidable_of_iff (e1 = e2) (by simp)
  | Except.error _, Except.ok _ => isFalse (fun h => Except.noConfusion h)
  | Except.ok _, Except.error _ => isFalse (fun h => Except.noConfusion h)
  | Except.ok a1, Except.ok a2 => decidable_of_iff (a1 = a2) (by simp)

instance {ε α : Type} [DecidableEq ε] [DecidableEq α] : DecidableEq (Except ε α) :=
  except_dec_eq

/- ---------------------------------------------------------------------
Concrete data used by witnesses and counterexamples.
--------------------------------------------------------------------- -/

/-- An oracle whose derivations always succeed with the fixed public key 7;
the merge logic never inspects the key material, only compares keys. -/
def exOracle : DeriveOracle :=
  ⟨fun _ => Except.ok [7], fun _ => Except.ok [7], fun _ => Except.ok [7]⟩

def exKey : AddressKey := MultiSigner.Sr25519 [7]

def exNet1 : NetworkSpecsKey := ⟨[1], Encryption.Sr25519⟩

def exNet2 : NetworkSpecsKey := ⟨[2], Encryption.Sr25519⟩

def exSpecs : NetworkSpecs :=
  ⟨("westend").toList, [1], Encryption.Sr25519, ("//westend").toList⟩

def exSeed : SeedObject :=
  ⟨("Alice").toList, ("bottom drive obey").toList, Encryption.Sr25519⟩

def exSeedEd : SeedObject :=
  ⟨("Alice").toList, ("bottom drive obey").toList, Encryption.Ed25519⟩

/-- A record for path //Alice whose network_id already holds network 1. -/
def exDetails : AddressDetails :=
  ⟨("Alice").toList, ("//Alice").toList, false, [exNet1], Encryption.Sr25519⟩

/-- A record for path //Alice holding only network 2 (network 1 absent). -/
def exDetailsNo1 : AddressDetails :=
  ⟨("Alice").toList, ("//Alice").toList, false, [exNet2], Encryption.Sr25519⟩

/-- exDetailsNo1 after network 1 has been pushed. -/
def exDetailsBoth : AddressDetails :=
  ⟨("Alice").toList, ("//Alice").toList, false, [exNet2, exNet1], Encryption.Sr25519⟩

/-- A persisted record under the same address key but a different path. -/
def exDetailsOther : AddressDetails :=
  ⟨("Bob").toList, ("//Other").toList, false, [exNet2], Encryption.Sr25519⟩

/-- The IdentityAdded payload of the concrete create_address calls. -/
def exHist : IdentityHistory :=
  ⟨("Alice").toList, Encryption.Sr25519, [7], ("//Alice").toList, [1]⟩

def exPk32 : List Nat := List.replicate 32 9

def exKey32 : AddressKey := MultiSigner.Sr25519 exPk32

/-- A record that belongs only to network 2. -/
def exDetailsDel : AddressDetails :=
  ⟨("Alice").toList, ("//Alice").toList, false, [exNet2], Encryption.Sr25519⟩

/-- A record that belongs only to network 1. -/
def exDetailsDel1 : AddressDetails :=
  ⟨("Alice").toList, ("//Alice").toList, false, [exNet1], Encryption.Sr25519⟩

/-- The IdentityRemoved payload of the concrete prepare_delete_address calls. -/
def exHistDel : IdentityHistory :=
  ⟨("Alice").toList, Encryption.Sr25519, exPk32, ("//Alice").toList, [1]⟩

/-- A record whose path starts with //Alice but not with //Alice//. -/
def exDetailsN : AddressDetails :=
  ⟨("Alice").toList, ("//Alicex12").toList, false, [exNet1], Encryption.Sr25519⟩

/- ---------------------------------------------------------------------
Helper lemmas.
--------------------------------------------------------------------- -/

/-- When every staged entry carrying the address key already holds the
network key, the staged-collision scan finds nothing. -/
theorem stage_merge_eq_none (nk : NetworkSpecsKey) (ak : AddressKey) :
    ∀ l : AddrTree, (∀ x ∈ l, x.1 = ak → nk ∈ x.2.network_id) →
      stage_merge nk ak l = none
  | [], _ => rfl
  | x :: xs, h => by
    have hx : ¬(x.1 = ak ∧ ¬ nk ∈ x.2.network_id) :=
      fun hc => hc.2 (h x (List.mem_cons_self x xs) hc.1)
    have hxs := stage_merge_eq_none nk ak xs
      (fun y hy hk => h y (List.mem_cons_of_mem x hy) hk)
    simp only [stage_merge, if_neg hx, hxs]

/-- Every success of the merge-resolution step leaves the event list as it
received it. -/
theorem create_address_merge_events (database : AddrTree) (b : AddrTree)
    (evs : List Event) (path : Chars) (ns : NetworkSpecs) (so : SeedObject)
    (hp : Bool) (ak : AddressKey) (out : AddrTree × List Event)
    (h : create_address_merge database b evs path ns so hp ak = Except.ok out) :
    out.2 = evs := by
  simp only [create_address_merge] at h
  split at h
  · cases h
    rfl
  · split at h
    · split at h
      · cases h
      · split at h
        · cases h
          rfl
        · cases h
          rfl
    · cases h
      rfl

/-- Removing all occurrences of an element that occurs exactly once is the
same as removing its first occurrence. -/
theorem filter_ne_eq_erase {α : Type} [DecidableEq α] :
    ∀ (l : List α) (a : α), l.count a = 1 →
      l.filter (fun x => x ≠ a) = l.erase a
  | [], a, h => by simp at h
  | b :: l, a, h => by
    by_cases hba : b = a
    · subst hba
      have hc : l.count b = 0 := by
        have h2 := List.count_cons_self b l
        omega
      have hnot : b ∉ l := List.count_eq_zero.mp hc
      rw [List.erase_cons_head]
      rw [List.filter_cons, if_neg (by simp)]
      exact List.filter_eq_self.mpr (fun x hx => by
        simp only [ne_eq, decide_eq_true_eq]
        exact fun hxb => hnot (hxb ▸ hx))
    · have h2 : l.count a = 1 := by
        rw [List.count_cons_of_ne (fun hab => hba hab.symm)] at h
        exact h
      rw [List.filter_cons, if_pos (by simp [hba])]
      rw [List.erase_cons_tail (by simp [hba])]
      rw [filter_ne_eq_erase l a h2]

/-- Shuffling Nat.max, used when commuting the fold accumulator. -/
theorem nat_max_shuffle (m a i : Nat) :
    Nat.max m (Nat.max a i) = Nat.max (Nat.max a m) i := by
  have hc : Nat.max m a = Nat.max a m := Nat.max_comm m a
  have ha : Nat.max m (Nat.max a i) = Nat.max (Nat.max m a) i :=
    (Nat.max_assoc m a i).symm
  rw [ha, hc]

/-- The loop body acts as Nat.max against the contributed value, when any. -/
theorem n_plus_one_step_eq (path : Chars) (last_index : Nat)
    (x : AddressKey × AddressDetails) :
    n_plus_one_step path last_index x =
      match n_plus_one_value path x with
      | some i => Nat.max ((i + 1) % 4294967296) last_index
      | none => last_index := by
  unfold n_plus_one_step n_plus_one_value
  cases hs : split_once x.2.path path with
  | none => rfl
  | some pr =>
    obtain ⟨pre, suffix⟩ := pr
    dsimp only
    by_cases hp : pre = []
    · subst hp
      rw [if_pos rfl, if_pos rfl]
      cases hg : str_get_from2 suffix with
      | none => rfl
      | some cbn =>
        cases hn : parse_u32 cbn with
        | none => rfl
        | some i => rfl
    · rw [if_neg hp, if_neg hp]

/-- The accumulated loop equals the maximum of the contributed successors. -/
theorem foldl_n_plus_one_step (path : Chars) :
    ∀ (l : AddrTree) (init : Nat),
      l.foldl (n_plus_one_step path) init =
        Nat.max
          (((n_plus_one_candidates l path).map (fun n => (n + 1) % 4294967296)).foldr Nat.max 0)
          init
  | [], init => by
    simp only [n_plus_one_candidates, List.filterMap_nil, List.map_nil,
      List.foldr_nil, List.foldl_nil]
    exact (Nat.zero_max init).symm
  | x :: l, init => by
    rw [List.foldl_cons]
    rw [foldl_n_plus_one_step path l (n_plus_one_step path init x)]
    rw [n_plus_one_step_eq]
    simp only [n_plus_one_candidates, List.filterMap_cons]
    cases hv : n_plus_one_value path x with
    | none => rfl
    | some i =>
      simp only [List.map_cons, List.foldr_cons]
      exact nat_max_shuffle _ _ _

/-- The merge-resolution step never produces the EncryptionMismatch error. -/
theorem is_encryption_mismatch_merge (database : AddrTree) (b : AddrTree)
    (evs : List Event) (path : Chars) (ns : NetworkSpecs) (so : SeedObject)
    (hp : Bool) (ak : AddressKey) :
    is_encryption_mismatch (create_address_merge database b evs path ns so hp ak) = false := by
  simp only [create_address_merge]
  split
  · rfl
  · split
    · split
      · rfl
      · split
        · rfl
        · rfl
    · rfl

/- ---------------------------------------------------------------------
Claim theorems.
--------------------------------------------------------------------- -/

/-- C5: when the network scheme differs from the seed object scheme,
create_address with the skip flag set returns the input staged list and
input event list unchanged, and with the flag clear fails with
EncryptionMismatch carrying both schemes; in either case no event is
appended and nothing is staged. -/
theorem c5_scheme_mismatch (database : AddrTree) (oracle : DeriveOracle)
    (input_batch_prep : AddrTree) (input_events : List Event) (path : Chars)
    (network_specs : NetworkSpecs) (seed_object : SeedObject) (has_pwd : Bool)
    (h : network_specs.encryption ≠ seed_object.encryption) :
    create_address database oracle input_batch_prep input_events path network_specs
        seed_object has_pwd true = Except.ok (input_batch_prep, input_events)
    ∧ create_address database oracle input_batch_prep input_events path network_specs
        seed_object has_pwd false =
      Except.error
        (ErrKind.EncryptionMismatch network_specs.encryption seed_object.encryption) := by
  constructor
  · unfold create_address
    rw [if_pos h]
    rfl
  · unfold create_address
    rw [if_pos h]
    rfl

/-- Witness for C5 at a concrete scheme mismatch (Sr25519 network, Ed25519
seed object). -/
theorem c5_witness :
    create_address [] exOracle [] [] (("//Alice").toList) exSpecs exSeedEd false true
        = Except.ok ([], [])
    ∧ create_address [] exOracle [] [] (("//Alice").toList) exSpecs exSeedEd false false
        = Except.error
            (ErrKind.EncryptionMismatch Encryption.Sr25519 Encryption.Ed25519) :=
  c5_scheme_mismatch [] exOracle [] [] (("//Alice").toList) exSpecs exSeedEd false
    (by decide)

/-- C6: check_derivation_format returns false for the empty string,
InvalidDerivation for two and for three slashes, true for four slashes
(password is one slash), and true for a path with a password that itself
contains three-slash runs. -/
theorem c6_check_derivation_format :
    check_derivation_format (("").toList) = Except.ok false
    ∧ check_derivation_format (("//").toList) = Except.error ErrKind.InvalidDerivation
    ∧ check_derivation_format (("///").toList) = Except.error ErrKind.InvalidDerivation
    ∧ check_derivation_format (("////").toList) = Except.ok true
    ∧ check_derivation_format (("//a///b///c").toList) = Except.ok true := by
  decide

/-- C9: try_create_address builds its seed object with the target network's
scheme, so the EncryptionMismatch error is unreachable from this entry,
whatever the database, oracle and arguments are. -/
theorem c9_no_encryption_mismatch (database : AddrTree) (oracle : DeriveOracle)
    (seed_name seed_phrase path : Chars) (network_specs : NetworkSpecs)
    (has_pwd : Bool) :
    is_encryption_mismatch
      (try_create_address database oracle seed_name seed_phrase path network_specs has_pwd)
      = false := by
  simp only [try_create_address, create_address, ne_eq, not_true_eq_false,
    if_false, Bool.false_eq_true]
  cases hd : derive oracle network_specs.encryption (seed_phrase ++ path) with
  | error e => rfl
  | ok v =>
    obtain ⟨pk, ak⟩ := v
    exact is_encryption_mismatch_merge _ _ _ _ _ _ _ _

/-- C10: suggest_path_name is total; on any input the derivation regex does
not match, it returns the empty string, the same output as for the empty
path. -/
theorem c10_suggest_path_name_total (s : Chars)
    (h : reg_path_captures s = none) :
    suggest_path_name s = [] ∧ suggest_path_name [] = [] := by
  constructor
  · unfold suggest_path_name
    rw [h]
    rfl
  · rfl

/-- Witness for C10 at two concrete non-matching inputs, one of them
rejected only because the password dot cannot match its newline. -/
theorem c10_witness :
    suggest_path_name (("abraca dabre").toList) = []
    ∧ suggest_path_name (("//a///b\nc").toList) = []
    ∧ suggest_path_name [] = [] :=
  ⟨(c10_suggest_path_name_total (("abraca dabre").toList) (by decide)).1,
   (c10_suggest_path_name_total (("//a///b\nc").toList) (by decide)).1,
   (c10_suggest_path_name_total (("abraca dabre").toList) (by decide)).2⟩

/-- When the staged scan finds nothing and the persisted record has the
same path with the network key already present, the merge step is a no-op
on the staged list. -/
theorem create_address_merge_persisted_noop (database : AddrTree) (b : AddrTree)
    (evs : List Event) (path : Chars) (ns : NetworkSpecs) (so : SeedObject)
    (hp : Bool) (ak : AddressKey) (det : AddressDetails)
    (h_all : ∀ x ∈ b, x.1 = ak →
      (⟨ns.genesis_hash, ns.encryption⟩ : NetworkSpecsKey) ∈ x.2.network_id)
    (h_db : db_get database ak = some det)
    (h_path : det.path = path)
    (h_net : (⟨ns.genesis_hash, ns.encryption⟩ : NetworkSpecsKey) ∈ det.network_id) :
    create_address_merge database b evs path ns so hp ak = Except.ok (b, evs) := by
  simp only [create_address_merge, stage_merge_eq_none _ _ b h_all, h_db, h_path, ne_eq]
  rw [if_neg (fun hh => hh trivial), if_neg (fun hh => hh h_net)]

/-- When the staged scan finds nothing and the persisted record has a
different path, the merge step fails with KeyCollision. -/
theorem create_address_merge_key_collision (database : AddrTree) (b : AddrTree)
    (evs : List Event) (path : Chars) (ns : NetworkSpecs) (so : SeedObject)
    (hp : Bool) (ak : AddressKey) (det : AddressDetails)
    (h_all : ∀ x ∈ b, x.1 = ak →
      (⟨ns.genesis_hash, ns.encryption⟩ : NetworkSpecsKey) ∈ x.2.network_id)
    (h_db : db_get database ak = some det)
    (h_path : det.path ≠ path) :
    create_address_merge database b evs path ns so hp ak =
      Except.error (ErrKind.KeyCollision det.seed_name) := by
  simp only [create_address_merge, stage_merge_eq_none _ _ b h_all, h_db, ne_eq]
  rw [if_pos h_path]

/-- When the staged scan finds nothing and the persisted record has the
same path but lacks the network key, the merge step stages the record with
the network key pushed. -/
theorem create_address_merge_push_network (database : AddrTree) (b : AddrTree)
    (evs : List Event) (path : Chars) (ns : NetworkSpecs) (so : SeedObject)
    (hp : Bool) (ak : AddressKey) (det : AddressDetails)
    (h_all : ∀ x ∈ b, x.1 = ak →
      (⟨ns.genesis_hash, ns.encryption⟩ : NetworkSpecsKey) ∈ x.2.network_id)
    (h_db : db_get database ak = some det)
    (h_path : det.path = path)
    (h_net : ¬ (⟨ns.genesis_hash, ns.encryption⟩ : NetworkSpecsKey) ∈ det.network_id) :
    create_address_merge database b evs path ns so hp ak =
      Except.ok
        (b ++ [(ak, { det with network_id :=
            det.network_id ++ [⟨ns.genesis_hash, ns.encryption⟩] })], evs) := by
  simp only [create_address_merge, stage_merge_eq_none _ _ b h_all, h_db, h_path, ne_eq]
  rw [if_neg (fun hh => hh trivial), if_pos h_net]

/-- C1 (amended): suppose the staged list holds an entry with the derived
address key whose network_id already includes the computed network key, and
no staged entry with that key lacks the network key.  The call does NOT
stop there: it falls through to the persisted lookup, and the staged list
comes back unchanged exactly when ADDRTREE persists a record under the key
with the same path whose network_id already holds the network key; one
IdentityAdded event is still appended. -/
theorem c1_staged_redundant_amended (database : AddrTree) (oracle : DeriveOracle)
    (input_batch_prep : AddrTree) (input_events : List Event) (path : Chars)
    (network_specs : NetworkSpecs) (seed_object : SeedObject)
    (has_pwd specs_encryption_skip : Bool) (public_key : List Nat)
    (address_key : AddressKey) (address_details : AddressDetails)
    (h_enc : network_specs.encryption = seed_object.encryption)
    (h_derive : derive oracle seed_object.encryption
      (seed_object.seed_phrase ++ path) = Except.ok (public_key, address_key))
    (_h_staged : ∃ x ∈ input_batch_prep, x.1 = address_key ∧
      (⟨network_specs.genesis_hash, network_specs.encryption⟩ : NetworkSpecsKey) ∈ x.2.network_id)
    (h_all : ∀ x ∈ input_batch_prep, x.1 = address_key →
      (⟨network_specs.genesis_hash, network_specs.encryption⟩ : NetworkSpecsKey) ∈ x.2.network_id)
    (h_db : db_get database address_key = some address_details)
    (h_path : address_details.path = path)
    (h_net : (⟨network_specs.genesis_hash, network_specs.encryption⟩ : NetworkSpecsKey)
      ∈ address_details.network_id) :
    create_address database oracle input_batch_prep input_events path network_specs
        seed_object has_pwd specs_encryption_skip =
      Except.ok (input_batch_prep,
        input_events ++
          [Event.IdentityAdded
            ⟨seed_object.seed_name, seed_object.encryption, public_key,
             cropped_path path, network_specs.genesis_hash⟩]) := by
  have hmain : create_address database oracle input_batch_prep input_events path
      network_specs seed_object has_pwd specs_encryption_skip =
      create_address_merge database input_batch_prep
        (input_events ++
          [Event.IdentityAdded
            ⟨seed_object.seed_name, seed_object.encryption, public_key,
             cropped_path path, network_specs.genesis_hash⟩])
        path network_specs seed_object has_pwd address_key := by
    unfold create_address
    rw [if_neg (fun hne => hne h_enc), h_derive]
  rw [hmain]
  exact create_address_merge_persisted_noop database input_batch_prep _ path
    network_specs seed_object has_pwd address_key address_details h_all h_db h_path h_net

/-- Witness for C1 at concrete inputs: the staged entry already carries the
network, the database persists the same record, and the staged list comes
back unchanged. -/
theorem c1_witness :
    create_address [(exKey, exDetails)] exOracle [(exKey, exDetails)] []
        (("//Alice").toList) exSpecs exSeed false false
      = Except.ok ([(exKey, exDetails)], [Event.IdentityAdded exHist]) := by
  have h := c1_staged_redundant_amended [(exKey, exDetails)] exOracle
    [(exKey, exDetails)] [] (("//Alice").toList) exSpecs exSeed false false
    [7] exKey exDetails (by decide) (by decide) (by decide) (by decide)
    (by decide) (by decide) (by decide)
  exact h

/-- Counterexample for C1 as stated: with the redundant derivation staged
but nothing persisted under the key, create_address stages a SECOND fresh
record for the same key instead of leaving the staged list unchanged. -/
theorem c1_counterexample :
    create_address [] exOracle [(exKey, exDetails)] [] (("//Alice").toList)
        exSpecs exSeed false false
      = Except.ok ([(exKey, exDetails), (exKey, exDetails)],
          [Event.IdentityAdded exHist])
    ∧ ([(exKey, exDetails), (exKey, exDetails)] : AddrTree) ≠ [(exKey, exDetails)] := by
  decide

/-- C2 (amended): when no staged entry with the derived address key lacks
the network key (so the staged-collision branch does not preempt the
lookup) and the key is persisted in ADDRTREE: a different stored path fails
with KeyCollision; the same path with the network key present is a no-op on
the staged list; the same path with the network key absent stages the
record with the key pushed into network_id. -/
theorem c2_persisted_collision_amended (database : AddrTree) (oracle : DeriveOracle)
    (input_batch_prep : AddrTree) (input_events : List Event) (path : Chars)
    (network_specs : NetworkSpecs) (seed_object : SeedObject)
    (has_pwd specs_encryption_skip : Bool) (public_key : List Nat)
    (address_key : AddressKey) (address_details : AddressDetails)
    (h_enc : network_specs.encryption = seed_object.encryption)
    (h_derive : derive oracle seed_object.encryption
      (seed_object.seed_phrase ++ path) = Except.ok (public_key, address_key))
    (h_all : ∀ x ∈ input_batch_prep, x.1 = address_key →
      (⟨network_specs.genesis_hash, network_specs.encryption⟩ : NetworkSpecsKey) ∈ x.2.network_id)
    (h_db : db_get database address_key = some address_details) :
    (address_details.path ≠ path →
      create_address database oracle input_batch_prep input_events path network_specs
          seed_object has_pwd specs_encryption_skip =
        Except.error (ErrKind.KeyCollision address_details.seed_name))
    ∧ (address_details.path = path →
        (⟨network_specs.genesis_hash, network_specs.encryption⟩ : NetworkSpecsKey)
          ∈ address_details.network_id →
        create_address database oracle input_batch_prep input_events path network_specs
            seed_object has_pwd specs_encryption_skip =
          Except.ok (input_batch_prep,
            input_events ++
              [Event.IdentityAdded
                ⟨seed_object.seed_name, seed_object.encryption, public_key,
                 cropped_path path, network_specs.genesis_hash⟩]))
    ∧ (address_details.path = path →
        ¬ (⟨network_specs.genesis_hash, network_specs.encryption⟩ : NetworkSpecsKey)
          ∈ address_details.network_id →
        create_address database oracle input_batch_prep input_events path network_specs
            seed_object has_pwd specs_encryption_skip =
          Except.ok
            (input_batch_prep ++
              [(address_key, { address_details with network_id :=
                  address_details.network_id ++
                    [⟨network_specs.genesis_hash, network_specs.encryption⟩] })],
             input_events ++
              [Event.IdentityAdded
                ⟨seed_object.seed_name, seed_object.encryption, public_key,
                 cropped_path path, network_specs.genesis_hash⟩])) := by
  have hmain : create_address database oracle input_batch_prep input_events path
      network_specs seed_object has_pwd specs_encryption_skip =
      create_address_merge database input_batch_prep
        (input_events ++
          [Event.IdentityAdded
            ⟨seed_object.seed_name, seed_object.encryption, public_key,
             cropped_path path, network_specs.genesis_hash⟩])
        path network_specs seed_object has_pwd address_key := by
    unfold create_address
    rw [if_neg (fun hne => hne h_enc), h_derive]
  refine ⟨fun hpath => ?_, fun hpath hnet => ?_, fun hpath hnet => ?_⟩
  · rw [hmain]
    exact create_address_merge_key_collision database input_batch_prep _ path
      network_specs seed_object has_pwd address_key address_details h_all h_db hpath
  · rw [hmain]
    exact create_address_merge_persisted_noop database input_batch_prep _ path
      network_specs seed_object has_pwd address_key address_details h_all h_db hpath hnet
  · rw [hmain]
    exact create_address_merge_push_network database input_batch_prep _ path
      network_specs seed_object has_pwd address_key address_details h_all h_db hpath hnet

/-- Witness for C2 at a concrete persisted collision with a different path:
the call fails with KeyCollision carrying the stored seed name. -/
theorem c2_witness :
    create_address [(exKey, exDetailsOther)] exOracle [] [] (("//Alice").toList)
        exSpecs exSeed false false
      = Except.error (ErrKind.KeyCollision (("Bob").toList)) := by
  have h := (c2_persisted_collision_amended [(exKey, exDetailsOther)] exOracle [] []
    (("//Alice").toList) exSpecs exSeed false false [7] exKey exDetailsOther
    (by decide) (by decide) (by decide) (by decide)).1 (by decide)
  exact h

/-- Counterexample for C2 as stated: the address key is persisted with a
DIFFERENT path, yet the call succeeds, because a staged entry with the key
and without the network key takes precedence over the persisted lookup. -/
theorem c2_counterexample :
    db_get [(exKey, exDetailsOther)] exKey = some exDetailsOther
    ∧ exDetailsOther.path ≠ (("//Alice").toList)
    ∧ create_address [(exKey, exDetailsOther)] exOracle [(exKey, exDetailsNo1)] []
        (("//Alice").toList) exSpecs exSeed false false
      = Except.ok ([(exKey, exDetailsBoth)], [Event.IdentityAdded exHist]) := by
  decide

/-- C3 (amended): on an existing record whose network_id holds the given
network key exactly once, prepare_delete_address removes precisely that one
entry (all entries equal to the key are filtered; with a single occurrence
this is the erasure of one element); the record is removed from the batch
when the remainder is empty and written back under the same key otherwise. -/
theorem c3_delete_amended (database : AddrTree) (network_specs : NetworkSpecs)
    (public_key : List Nat) (address_key : AddressKey)
    (address_details : AddressDetails)
    (h_key : address_key_from_parts public_key network_specs.encryption
      = Except.ok address_key)
    (h_db : db_get database address_key = some address_details)
    (h_count : address_details.network_id.count
      (⟨network_specs.genesis_hash, network_specs.encryption⟩ : NetworkSpecsKey) = 1) :
    prepare_delete_address database network_specs public_key =
      Except.ok
        ((if (address_details.network_id.erase
              (⟨network_specs.genesis_hash, network_specs.encryption⟩ : NetworkSpecsKey)).isEmpty
          then [BatchOp.remove address_key]
          else
            [BatchOp.put address_key
              { address_details with
                network_id :=
                  address_details.network_id.erase
                    (⟨network_specs.genesis_hash, network_specs.encryption⟩ : NetworkSpecsKey) }]),
         [Event.IdentityRemoved
           ⟨address_details.seed_name, network_specs.encryption, public_key,
            address_details.path, network_specs.genesis_hash⟩])
    ∧ (address_details.network_id.erase
        (⟨network_specs.genesis_hash, network_specs.encryption⟩ : NetworkSpecsKey)).length + 1
      = address_details.network_id.length := by
  have herase := filter_ne_eq_erase address_details.network_id
    ⟨network_specs.genesis_hash, network_specs.encryption⟩ h_count
  have hpos : 0 < address_details.network_id.count
      (⟨network_specs.genesis_hash, network_specs.encryption⟩ : NetworkSpecsKey) := by
    omega
  have hmem := List.count_pos_iff.mp hpos
  constructor
  · simp only [prepare_delete_address, h_key, h_db]
    rw [herase]
  · rw [List.length_erase_of_mem hmem]
    have hlen : 0 < address_details.network_id.length := List.length_pos_of_mem hmem
    omega

/-- Witness for C3 at a concrete record holding only the deleted network:
the remainder is empty and the batch removes the record. -/
theorem c3_witness :
    prepare_delete_address [(exKey32, exDetailsDel1)] exSpecs exPk32
      = Except.ok ([BatchOp.remove exKey32], [Event.IdentityRemoved exHistDel]) := by
  have h := (c3_delete_amended [(exKey32, exDetailsDel1)] exSpecs exPk32 exKey32
    exDetailsDel1 (by decide) (by decide) (by decide)).1
  exact h

/-- Counterexample for C3 as stated: deleting a network that is NOT in the
record's network_id succeeds, writes the record back unchanged, and reduces
network_id by zero entries rather than exactly one. -/
theorem c3_counterexample :
    db_get [(exKey32, exDetailsDel)] exKey32 = some exDetailsDel
    ∧ prepare_delete_address [(exKey32, exDetailsDel)] exSpecs exPk32
        = Except.ok ([BatchOp.put exKey32 exDetailsDel],
            [Event.IdentityRemoved exHistDel])
    ∧ exDetailsDel.network_id.length = 1 := by
  decide

/-- C4 (amended): every successful scheme-matching create_address call
appends exactly one IdentityAdded event after the input events, even when
no staged or persisted record is mentioned or changed; every successful
prepare_delete_address call emits exactly one IdentityRemoved event, even
when the record does not carry the deleted network. -/
theorem c4_event_per_call_amended :
    (∀ (database : AddrTree) (oracle : DeriveOracle) (input_batch_prep : AddrTree)
       (input_events : List Event) (path : Chars) (network_specs : NetworkSpecs)
       (seed_object : SeedObject) (has_pwd specs_encryption_skip : Bool)
       (public_key : List Nat) (address_key : AddressKey)
       (out : AddrTree × List Event),
       network_specs.encryption = seed_object.encryption →
       derive oracle seed_object.encryption (seed_object.seed_phrase ++ path)
         = Except.ok (public_key, address_key) →
       create_address database oracle input_batch_prep input_events path network_specs
         seed_object has_pwd specs_encryption_skip = Except.ok out →
       out.2 = input_events ++
         [Event.IdentityAdded
           ⟨seed_object.seed_name, seed_object.encryption, public_key,
            cropped_path path, network_specs.genesis_hash⟩])
    ∧ (∀ (database : AddrTree) (network_specs : NetworkSpecs) (public_key : List Nat)
         (out : List BatchOp × List Event),
         prepare_delete_address database network_specs public_key = Except.ok out →
         ∃ hist, out.2 = [Event.IdentityRemoved hist]) := by
  constructor
  · intro database oracle b evs path ns so hp sk pk ak out h_enc h_derive h_ok
    have hmain : create_address database oracle b evs path ns so hp sk =
        create_address_merge database b
          (evs ++
            [Event.IdentityAdded
              ⟨so.seed_name, so.encryption, pk, cropped_path path, ns.genesis_hash⟩])
          path ns so hp ak := by
      unfold create_address
      rw [if_neg (fun hne => hne h_enc), h_derive]
    rw [hmain] at h_ok
    exact create_address_merge_events database b _ path ns so hp ak out h_ok
  · intro database ns pk out h_ok
    simp only [prepare_delete_address] at h_ok
    split at h_ok
    · cases h_ok
    · split at h_ok
      · cases h_ok
      · cases h_ok
        exact ⟨_, rfl⟩

/-- Witness for C4 at a concrete fresh creation: the staged batch gains one
record and exactly one IdentityAdded event is appended. -/
theorem c4_witness :
    create_address [] exOracle [] [] (("//Alice").toList) exSpecs exSeed false false
      = Except.ok ([(exKey, exDetails)], [Event.IdentityAdded exHist])
    ∧ (([(exKey, exDetails)], [Event.IdentityAdded exHist]) : AddrTree × List Event).2
      = [] ++ [Event.IdentityAdded exHist] := by
  constructor
  · decide
  · exact c4_event_per_call_amended.1 [] exOracle [] [] (("//Alice").toList) exSpecs
      exSeed false false [7] exKey ([(exKey, exDetails)], [Event.IdentityAdded exHist])
      (by decide) (by decide) (by decide)

/-- Counterexample for C4 as stated: a create_address call that mutates no
(record, network) pair at all (the record is persisted with the same path
and the network already present, so the staged batch comes back empty)
still emits an IdentityAdded event. -/
theorem c4_counterexample :
    create_address [(exKey, exDetails)] exOracle [] [] (("//Alice").toList)
        exSpecs exSeed false false
      = Except.ok ([], [Event.IdentityAdded exHist]) := by
  decide

/-- C7 (amended): suggest_n_plus_one returns the base path, two slashes and
the decimal of m, where m is the maximum over all contributed successors
((value + 1) modulo 2^32, the u32 wrap of the source) of the relevant
identities and 0 when none contribute; an identity contributes its parsed
value when its stored path merely STARTS WITH the base path (the two
dropped bytes after the base path are not checked to be two slashes) and
the remainder minus its first two bytes parses as a u32.  When no identity
contributes, the result is the base path followed by two slashes and 0. -/
theorem c7_suggest_n_plus_one_amended (database : AddrTree) (path seed_name : Chars)
    (network_specs_key : NetworkSpecsKey) :
    suggest_n_plus_one database path seed_name network_specs_key =
      path ++ ('/' :: '/' ::
        (Nat.repr
          (((n_plus_one_candidates
              (get_relevant_identities seed_name network_specs_key database) path).map
            (fun n => (n + 1) % 4294967296)).foldr Nat.max 0)).toList)
    ∧ (n_plus_one_candidates
        (get_relevant_identities seed_name network_specs_key database) path = [] →
      suggest_n_plus_one database path seed_name network_specs_key =
        path ++ ('/' :: '/' :: ['0'])) := by
  have hfold := foldl_n_plus_one_step path
    (get_relevant_identities seed_name network_specs_key database) 0
  have hz : ∀ n : Nat, Nat.max n 0 = n := fun n => Nat.max_zero n
  constructor
  · simp only [suggest_n_plus_one]
    rw [hfold]
    rw [hz]
  · intro hempty
    simp only [suggest_n_plus_one]
    rw [hfold, hempty]
    rfl

/-- Witness for C7: with no identities at all there are no contributed
values and the suggestion is the base path followed by two slashes and 0. -/
theorem c7_witness :
    suggest_n_plus_one [] (("//Alice").toList) (("Alice").toList) exNet1
      = ("//Alice").toList ++ ('/' :: '/' :: ['0']) :=
  (c7_suggest_n_plus_one_amended [] (("//Alice").toList) (("Alice").toList) exNet1).2
    (by decide)

/-- Counterexample for C7 as stated: a stored path that starts with the
base path but NOT with base path plus two slashes still feeds the counter,
so the suggestion is not the claimed base//0. -/
theorem c7_counterexample :
    suggest_n_plus_one [(exKey, exDetailsN)] (("//Alice").toList) (("Alice").toList)
        exNet1
      = ("//Alice//3").toList
    ∧ (("//Alice//").toList).isPrefixOf exDetailsN.path = false
    ∧ ("//Alice//3").toList ≠ ("//Alice//0").toList := by
  decide
